import Mathlib

/-!
Verification of the conversational-gateway repository: session store,
tool-calling orchestration loop (Ollama client), browser resource pool and
WebMCP discovery/execution, shallowly embedded from the Python sources.
-/

set_option maxHeartbeats 1000000
set_option linter.unusedVariables false

/-! ## Session store (src/core/session.py) -/

/-- A chat `Message` (src/core/session.py, class Message).  The wall-clock
`timestamp` field and the optional `metadata` mapping carry no information
relevant to any property below (they are produced by `time.time()` and passed
through verbatim), so the embedding keeps the `role` and `content` fields. -/
structure Message where
  role : String
  content : String
deriving Repr, DecidableEq

/-- A `Session` (src/core/session.py, class Session): caller-supplied id plus
an ordered message history. -/
structure Session where
  session_id : String
  history : List Message
deriving Repr, DecidableEq

/-- `Session.add_message`: appends a freshly built message to the history
(the Python method mutates in place; the embedding returns the new session). -/
def Session.add_message (s : Session) (role content : String) : Session :=
  { s with history := s.history ++ [⟨role, content⟩] }

/-- One stored line of a `.jsonl` session file, as `SessionStore.load_session`
classifies it: a whitespace-only line (skipped by `if line.strip()`), a line
whose JSON decoding fails (`json.JSONDecodeError`, skipped by the inner
`except`), a line that is valid JSON but fails `Message(**data)` validation
(the resulting exception is not a `JSONDecodeError`, so it escapes the inner
`except` and is caught by the outer one, aborting the read loop), or a line
holding a valid serialized `Message`. -/
inductive Record where
  | blank : Record
  | badJson : Record
  | badSchema : Record
  | valid : Message → Record
deriving Repr, DecidableEq

/-- The history accumulated by `SessionStore.load_session`'s line loop over
the stored records: blank and JSON-undecodable lines are skipped and the loop
continues; a schema-invalid line raises past the inner `except`, the outer
`except Exception` catches it, and the partial history read so far is
returned; valid lines are appended in order. -/
def loadHistory : List Record → List Message
  | [] => []
  | .blank :: rest => loadHistory rest
  | .badJson :: rest => loadHistory rest
  | .badSchema :: _ => []
  | .valid m :: rest => m :: loadHistory rest

/-- `SessionStore._get_path`'s sanitization: keep only alphanumeric
characters, `-` and `_` of the session id. -/
def sanitizeId (session_id : String) : String :=
  String.mk (session_id.toList.filter (fun c => c.isAlphanum || c = '-' || c = '_'))

/-- `SessionStore._get_path`: storage path derived from the session
directory and the sanitized id. -/
def getPath (session_dir session_id : String) : String :=
  session_dir ++ "/" ++ sanitizeId session_id ++ ".jsonl"

/-- The file system seen by a `SessionStore`: an association of paths to the
record lines of the file stored there; a path that is absent models a file
that does not exist. -/
def Store := List (String × List Record)

/-- Lines of the file at `path`, or `none` when no file exists there. -/
def Store.file (store : Store) (path : String) : Option (List Record) :=
  (List.lookup path store)

/-- `SessionStore.load_session`: missing file yields an empty session,
otherwise the history is read line by line by `loadHistory`. -/
def loadSession (store : Store) (session_dir session_id : String) : Session :=
  match store.file (getPath session_dir session_id) with
  | none => ⟨session_id, []⟩
  | some records => ⟨session_id, loadHistory records⟩

/-- Append one record to the file at `path` (creating it when absent), the
effect of opening in mode `'a'` and writing one line. -/
def Store.appendRecord (store : Store) (path : String) (r : Record) : Store :=
  match store with
  | [] => [(path, [r])]
  | (p, rs) :: rest =>
    if p = path then (p, rs ++ [r]) :: rest
    else (p, rs) :: Store.appendRecord rest path r

/-- `SessionStore.save_message`: append the serialized message as one line of
the file at the sanitized path. -/
def saveMessage (store : Store) (session_dir session_id : String) (m : Message) : Store :=
  store.appendRecord (getPath session_dir session_id) (.valid m)

/-! ## Tool registry and tool calls (src/core/tools.py, src/core/ollama_client.py) -/

/-- A tool call's arguments mapping (keyword arguments `**arguments`). -/
def Args := List (String × String)

/-- A registered tool: its invocation either returns a result string or
raises, carrying the exception text (src/core/tools.py registers plain
functions; every claim only observes return-vs-raise and the strings). -/
def Tool := Args → Except String String

/-- The `ToolRegistry`: a name-to-function mapping populated at startup. -/
def Registry := List (String × Tool)

/-- `ToolRegistry.get_tool`: `self.tools.get(name)`, `none` when absent. -/
def getTool (reg : Registry) (name : String) : Option Tool :=
  List.lookup name reg

/-- An ephemeral tool call produced by the model backend for one round. -/
structure ToolCall where
  name : String
  arguments : Args

/-- One entry of the `messages` list sent to the backend (the Python dicts
`{"role": ..., "content": ...}`; the `tool_calls` carried on a backend
response message are consumed immediately and never re-read from the
transcript, so the transcript entry keeps role and content). -/
structure ChatMsg where
  role : String
  content : String
deriving Repr, DecidableEq

/-- What one `ollama.chat` call yields: the response message's `content`
(defaulted to `""`) and its `tool_calls` (defaulted to `[]`). -/
structure ChatResponse where
  content : String
  tool_calls : List ToolCall

/-- The model backend: given the index of this `ollama.chat` call within the
current `send_message`, the transcript so far and whether tools were offered
(`tools=use_tools` vs `None`), it returns a response or raises. -/
def Backend := Nat → List ChatMsg → Bool → Except String ChatResponse

/-- `MAX_TOOL_ROUNDS = 3` (src/core/ollama_client.py line 70). -/
def MAX_TOOL_ROUNDS : Nat := 3

/-- Executing one tool call inside the round loop
(src/core/ollama_client.py lines 127-134): missing registry entry and raising
invocation each synthesize an error string instead of failing the exchange. -/
def execToolCall (reg : Registry) (tc : ToolCall) : String :=
  match getTool reg tc.name with
  | some f =>
    match f tc.arguments with
    | .ok result => result
    | .error e => "Error executing tool " ++ tc.name ++ ": " ++ e
  | none => "Error: Tool " ++ tc.name ++ " not found."

/-- Tool-result truncation (src/core/ollama_client.py lines 137-140):
results longer than 4000 characters are cut to their first 4000 characters
and an explicit truncation marker is attached. -/
def truncateResult (s : String) : String :=
  if s.length > 4000 then
    s.take 4000 ++ "\n\n[... truncated for length. Present the above results to the user.]"
  else s

/-- Outcome of the `while round_num <= MAX_TOOL_ROUNDS` loop: a tool-free
final answer, exhaustion of the round budget, or an exception raised by
`ollama.chat` (propagating to the outer `except`).  Each outcome carries the
number of backend calls issued so far. -/
inductive LoopOutcome where
  | final (content : String) (messages : List ChatMsg) (calls : Nat)
  | exhausted (messages : List ChatMsg) (calls : Nat)
  | failed (err : String) (calls : Nat)

/-- The round loop of `OllamaClient.send_message` (lines 87-147).  `fuel`
counts the remaining iterations (the Python loop runs for
`round_num = 0, 1, ..., MAX_TOOL_ROUNDS`, so it starts at
`MAX_TOOL_ROUNDS + 1` with `round_num = 0`); tools are offered exactly while
`round_num < MAX_TOOL_ROUNDS`; a response without tool calls is final (empty
content replaced by a fixed fallback sentence); otherwise the response
message and one truncated tool-result message per requested call are appended
and the loop advances. -/
def toolLoop (backend : Backend) (reg : Registry) :
    Nat → Nat → List ChatMsg → Nat → LoopOutcome
  | 0, _, messages, calls => .exhausted messages calls
  | fuel + 1, round_num, messages, calls =>
    match backend calls messages (decide (round_num < MAX_TOOL_ROUNDS)) with
    | .error e => .failed e (calls + 1)
    | .ok resp =>
      if resp.tool_calls.isEmpty then
        let final_content :=
          if resp.content = "" then
            "I processed the request but have no additional response."
          else resp.content
        .final final_content messages (calls + 1)
      else
        toolLoop backend reg fuel (round_num + 1)
          (messages ++ [⟨"assistant", resp.content⟩] ++
            resp.tool_calls.map
              (fun tc => ⟨"tool", truncateResult (execToolCall reg tc)⟩))
          (calls + 1)

/-- `"\n\n".join(...)` of Python: concatenation with a separator between
consecutive elements, empty string for the empty list. -/
def joinSep (sep : String) : List String → String
  | [] => ""
  | [a] => a
  | a :: b :: rest => a ++ sep ++ joinSep sep (b :: rest)

/-- Python's `l[-2:]`: the last two elements (the whole list when shorter). -/
def lastTwo (l : List α) : List α :=
  l.drop (l.length - 2)

/-- The fixed system message appended before the forced text-only call
(src/core/ollama_client.py lines 151-154). -/
def forcedSystemMsg : ChatMsg :=
  ⟨"system", "You must now respond to the user with the information gathered. Do not call any more tools."⟩

/-- `OllamaClient.send_message` (src/core/ollama_client.py lines 64-178),
returning the updated session, the returned text and the number of
`ollama.chat` calls issued.  The initial transcript is the optional system
instruction followed by the session history (role `"model"` renamed to
`"assistant"`); note the `content` argument is never folded into the
transcript nor into the session by the source.  On exhaustion one forced
text-only call is made; its empty answer falls back to joining the last two
tool results (or a fixed sentence when there are none); a raising backend is
converted to a fixed apology whose debug-annotated form is what enters the
session. -/
def sendMessage (backend : Backend) (reg : Registry) (system_instruction : Option String)
    (session : Session) (content : String) : Session × String × Nat :=
  let sysMsgs : List ChatMsg :=
    match system_instruction with
    | some si => [⟨"system", si⟩]
    | none => []
  let messages := sysMsgs ++ session.history.map
    (fun m => ChatMsg.mk (if m.role = "model" then "assistant" else m.role) m.content)
  match toolLoop backend reg (MAX_TOOL_ROUNDS + 1) 0 messages 0 with
  | .final final_content _ calls =>
    (session.add_message "assistant" final_content, final_content, calls)
  | .failed e calls =>
    let fallback := "I encountered an error communicating with my local brain."
    (session.add_message "assistant" (fallback ++ " (Debug: " ++ e ++ ")"), fallback, calls)
  | .exhausted msgs calls =>
    let msgs := msgs ++ [forcedSystemMsg]
    match backend calls msgs false with
    | .error e =>
      let fallback := "I encountered an error communicating with my local brain."
      (session.add_message "assistant" (fallback ++ " (Debug: " ++ e ++ ")"), fallback, calls + 1)
    | .ok finalResp =>
      let final_content :=
        if finalResp.content = "" then
          let tool_results := (msgs.filter (fun m => m.role = "tool")).map ChatMsg.content
          if tool_results.isEmpty then
            "I processed the request but couldn't generate a summary."
          else joinSep "\n\n" (lastTwo tool_results)
        else finalResp.content
      (session.add_message "assistant" final_content, final_content, calls + 1)

/-! ## The agent entry point (src/core/agent.py) -/

/-- `GeminiAgent.process_message` with no memory store configured
(src/core/agent.py lines 12-56): load the session, call the client's
`send_message`, then — only when the resulting in-memory history holds at
least two messages — persist its last two entries (intended as "user" and
"assistant"), and return the response text. -/
def processMessage (backend : Backend) (reg : Registry) (system_instruction : Option String)
    (store : Store) (session_dir session_id user_message : String) : Store × String :=
  let session := loadSession store session_dir session_id
  let result := sendMessage backend reg system_instruction session user_message
  let session' := result.1
  let response_text := result.2.1
  let store' :=
    if 2 ≤ session'.history.length then
      let h := session'.history
      saveMessage (saveMessage store session_dir session_id (h.getD (h.length - 2) ⟨"", ""⟩))
        session_dir session_id (h.getD (h.length - 1) ⟨"", ""⟩)
    else store
  (store', response_text)

/-! ## Browser pool (src/core/browser_pool.py) -/

/-- The observable state of a `BrowserPool`: whether Playwright/browser
initialization has run (`_initialized`), whether `_loop` has ever been
created (`_loop is not None`), whether that loop is currently running,
whether `_browser` is live, the keys of the `_pages` cache, and an
instrumentation counter of page navigations (`page.goto`) performed. -/
structure PoolState where
  initialized : Bool
  hasLoop : Bool
  loopRunning : Bool
  browser : Bool
  pages : List String
  loads : Nat
deriving Repr, DecidableEq

/-- The pool state of a freshly constructed `BrowserPool.__init__`. -/
def PoolState.initial : PoolState :=
  { initialized := false, hasLoop := false, loopRunning := false,
    browser := false, pages := [], loads := 0 }

/-- `BrowserPool._ensure_event_loop`: when no loop is running (including
after `close` stopped it), a new event loop and background thread are
created and started. -/
def ensureEventLoop (s : PoolState) : PoolState :=
  if s.hasLoop && s.loopRunning then s
  else { s with hasLoop := true, loopRunning := true }

/-- `BrowserPool._ensure_browser`: under the lock, when `_initialized` is
false, run `_async_init` on the (freshly ensured) event loop, starting
Playwright and launching the browser. -/
def ensureBrowser (s : PoolState) : PoolState :=
  if s.initialized then s
  else
    let s := ensureEventLoop s
    { s with initialized := true, browser := true }

/-- `BrowserPool.get_page(url, force_new)`: ensure the browser, then run
`_async_get_page` on the (ensured) loop.  A cached still-open page is
returned without navigation unless `force_new`; otherwise a fresh context and
page are created and navigated — `nav url` tells whether `page.goto`
succeeds; on success the page is cached under `url`, on failure the raised
error propagates to the caller.  The page handle is identified by its URL
key. -/
def getPage (nav : String → Bool) (s : PoolState) (url : String) (force_new : Bool) :
    PoolState × Except String String :=
  let s := ensureBrowser s
  let s := ensureEventLoop s
  if !force_new && s.pages.contains url then (s, .ok url)
  else
    if nav url then
      ({ s with pages := if s.pages.contains url then s.pages else url :: s.pages,
                loads := s.loads + 1 }, .ok url)
    else ({ s with loads := s.loads + 1 }, .error ("navigation to " ++ url ++ " failed"))

/-- `BrowserPool.close` (src/core/browser_pool.py lines 139-151): when
initialized and a loop object exists, run `_async_close` (restarting the loop
if needed): all pages are closed and evicted, the browser and Playwright are
shut down, `_initialized`, `_browser`, `_playwright` are reset; then a
running loop is stopped and the thread joined. -/
def closePool (s : PoolState) : PoolState :=
  let s1 :=
    if s.initialized && s.hasLoop then
      let s' := ensureEventLoop s
      { s' with pages := [], browser := false, initialized := false }
    else s
  if s1.hasLoop && s1.loopRunning then { s1 with loopRunning := false } else s1

/-! ## WebMCP client (src/core/webmcp.py) -/

/-- What the discovery script returns from the page (`DISCOVER_TOOLS_JS`
always resolves to an object `{hasWebMCP, toolCount, tools, url, title}`);
the Python side then adds the `fromCache` flag and, on failure paths, a
`note`/`error` field.  Discovered tools keep the fields the script pushes. -/
structure DiscoveredTool where
  name : String
  description : String
  source : String
deriving Repr, DecidableEq

/-- A discovery result dict as returned by `WebMCPClient.discover_tools`. -/
structure Discovery where
  hasWebMCP : Bool
  toolCount : Nat
  tools : List DiscoveredTool
  url : String
  title : String
  fromCache : Bool
  note : Option String
  error : Option String
deriving Repr, DecidableEq

/-- The raw object the page evaluation resolves to (before `fromCache` is
attached). -/
structure ScanData where
  hasWebMCP : Bool
  toolCount : Nat
  tools : List DiscoveredTool
  url : String
  title : String
deriving Repr, DecidableEq

/-- The behaviour of `pool.evaluate(page, DISCOVER_TOOLS_JS)` on the page for
a URL: `.error e` when evaluation raises (timeout, closed page), `.ok none`
when it resolves to a falsy/non-dict value, `.ok (some d)` for a proper
scan object. -/
def ScanEnv := String → Except String (Option ScanData)

/-- The state of a `WebMCPClient`: its `BrowserPool` and the per-URL
`_tool_cache`. -/
structure WebState where
  pool : PoolState
  cache : List (String × Discovery)
deriving Repr, DecidableEq

/-- Replace the binding of `url` in an association list (used because Python
mutates the cached dict in place, so the cache sees the updated flag). -/
def updateCache (cache : List (String × Discovery)) (url : String) (d : Discovery) :
    List (String × Discovery) :=
  cache.map (fun p => if p.1 = url then (url, d) else p)

/-- The cache-miss (or forced-refresh) path of `WebMCPClient.discover_tools`:
fetch the page via `get_page` (with `force_new=force_refresh`) and scan it.
A proper scan object is annotated `fromCache=False` and cached; a
falsy/non-dict evaluation yields an uncached empty result with a `note`; a
raised exception (navigation or evaluation) yields an uncached empty result
with an `error` string. -/
def discoverScan (nav : String → Bool) (scan : ScanEnv) (st : WebState)
    (url : String) (force_refresh : Bool) : WebState × Discovery :=
  match getPage nav st.pool url force_refresh with
  | (pool', .error e) =>
    ({ st with pool := pool' },
     { hasWebMCP := false, toolCount := 0, tools := [], url := url, title := "",
       fromCache := false, note := none, error := some e })
  | (pool', .ok page) =>
    match scan url with
    | .error e =>
      ({ st with pool := pool' },
       { hasWebMCP := false, toolCount := 0, tools := [], url := url, title := "",
         fromCache := false, note := none, error := some e })
    | .ok none =>
      ({ st with pool := pool' },
       { hasWebMCP := false, toolCount := 0, tools := [], url := url, title := "",
         fromCache := false, note := some "No WebMCP data returned from page", error := none })
    | .ok (some d) =>
      let result : Discovery :=
        { hasWebMCP := d.hasWebMCP, toolCount := d.toolCount, tools := d.tools,
          url := d.url, title := d.title, fromCache := false, note := none, error := none }
      ({ st with pool := pool',
                 cache := (url, result) ::
                   st.cache.filter (fun p => p.1 ≠ url) }, result)

/-- `WebMCPClient.discover_tools(url, force_refresh)`
(src/core/webmcp.py lines 186-231).  A cache hit without forced refresh
mutates the cached dict's `fromCache` to `True` and returns it, touching the
pool not at all; otherwise `discoverScan` runs. -/
def discoverTools (nav : String → Bool) (scan : ScanEnv) (st : WebState)
    (url : String) (force_refresh : Bool) : WebState × Discovery :=
  match List.lookup url st.cache with
  | some cached =>
    if force_refresh then discoverScan nav scan st url force_refresh
    else
      let cached' := { cached with fromCache := true }
      ({ st with cache := updateCache st.cache url cached' }, cached')
  | none => discoverScan nav scan st url force_refresh

/-- A WebMCP handler registered on a page via `navigator.modelContext.tools`:
invoking it either resolves to a result or rejects with an error message
(the in-page script catches the rejection itself). -/
def Handler := Args → Except String String

/-- The kind of element `document.querySelector('[data-mcp-tool="..."]')`
finds: a form (filled and submitted), a button or an anchor (clicked), or
some other element (neither branch applies, so execution falls through to the
not-found result). -/
inductive ElemKind where
  | form
  | button
  | anchor
  | other
deriving Repr, DecidableEq

/-- The capability surface of one page as the execution script sees it:
`navigator.modelContext.tools` entries (an entry whose `handler` is not a
function carries `none`), and the `data-mcp-tool` element for each name
(when present). -/
structure PageModel where
  nativeTools : List (String × Option Handler)
  elems : String → Option ElemKind

/-- The structured result dict of tool execution
(`{success, result|error, source}`). -/
structure ExecResult where
  success : Bool
  result : Option String
  error : Option String
  source : Option String
deriving Repr, DecidableEq

/-- The in-page execution script of `WebMCPClient.execute_tool`
(src/core/webmcp.py lines 252-293): try the native
`navigator.modelContext.tools` entry whose handler is a function (a resolved
handler yields `success: true` with its result, a rejecting one
`success: false` with its message); otherwise fall back to the
`data-mcp-tool` element — a form is submitted, a button or anchor clicked,
each reported as success; anything else falls through to the structured
not-found failure. -/
def execScript (pm : PageModel) (toolName : String) (args : Args) : ExecResult :=
  match List.lookup toolName pm.nativeTools with
  | some (some handler) =>
    match handler args with
    | .ok r =>
      { success := true, result := some r, error := none,
        source := some "navigator.modelContext" }
    | .error e =>
      { success := false, result := none, error := some e,
        source := some "navigator.modelContext" }
  | _ =>
    match pm.elems toolName with
    | some .form =>
      { success := true, result := some "Form submitted", error := none,
        source := some "data-attribute" }
    | some .button =>
      { success := true, result := some "Element clicked", error := none,
        source := some "data-attribute" }
    | some .anchor =>
      { success := true, result := some "Element clicked", error := none,
        source := some "data-attribute" }
    | _ =>
      { success := false, result := none,
        error := some ("Tool \x22" ++ toolName ++ "\x22 not found or not executable on this page"),
        source := none }

/-- `WebMCPClient.execute_tool(url, tool_name, arguments)`
(src/core/webmcp.py lines 233-299): resolve the page via the pool's
`get_page` (no forced refresh) and evaluate the execution script on it; any
exception on the way (navigation failure, evaluation raising) is caught and
converted to a `success=False` dict carrying the error string.  `pageOf`
gives the capability surface of each URL's page; `evalRaises` tells whether
the evaluation call itself raises. -/
def executeTool (nav : String → Bool) (evalRaises : String → Option String)
    (pageOf : String → PageModel) (st : PoolState)
    (url toolName : String) (args : Args) : PoolState × ExecResult :=
  match getPage nav st url false with
  | (st', .error e) =>
    (st', { success := false, result := none, error := some e, source := none })
  | (st', .ok page) =>
    match evalRaises url with
    | some e =>
      (st', { success := false, result := none, error := some e, source := none })
    | none => (st', execScript (pageOf url) toolName args)

/-! ## Helper lemmas -/

/-- A log of only valid records loads to exactly those messages. -/
theorem loadHistory_map_valid (ms : List Message) :
    loadHistory (ms.map Record.valid) = ms := by
  induction ms with
  | nil => rfl
  | cons m ms ih => simp [loadHistory, ih]

/-- `lastTwo` of a list with at least two elements has exactly two. -/
theorem lastTwo_length (l : List α) (h : 2 ≤ l.length) : (lastTwo l).length = 2 := by
  unfold lastTwo
  rw [List.length_drop]
  omega

/-- Joining two strings with `"\n\n"` never yields the empty string. -/
theorem joinSep_two_ne_empty (a b : String) : joinSep "\n\n" [a, b] ≠ "" := by
  intro h
  have hlen := congrArg String.length h
  rw [show joinSep "\n\n" [a, b] = a ++ "\n\n" ++ b from rfl,
    String.length_append, String.length_append,
    show ("\n\n" : String).length = 2 from rfl,
    show ("" : String).length = 0 from rfl] at hlen
  omega

/-! ## Claim theorems -/

/-- **C4, counterexample.**  The claim says a log holding one corrupted
record among valid ones loads to exactly the valid messages; but a record
that is valid JSON while failing `Message` validation aborts the read loop,
dropping every valid record after it. -/
theorem c4_load_counterexample :
    loadHistory [Record.valid ⟨"user", "hello"⟩, Record.badSchema,
      Record.valid ⟨"assistant", "hi"⟩] = [⟨"user", "hello"⟩] ∧
    loadHistory [Record.valid ⟨"user", "hello"⟩, Record.badSchema,
      Record.valid ⟨"assistant", "hi"⟩] ≠
      [⟨"user", "hello"⟩, ⟨"assistant", "hi"⟩] := by
  constructor
  · rfl
  · decide

/-- **C4, amended.**  A log of N valid records and one corrupted record
loads to exactly the N valid messages in order when the corruption is a
blank line or a JSON-decoding failure; when the corrupted record is valid
JSON failing `Message` validation, the load returns exactly the valid
messages preceding it. -/
theorem c4_load_skips_corrupt (ms ns : List Message) :
    loadHistory (ms.map Record.valid ++ [Record.badJson] ++ ns.map Record.valid) = ms ++ ns
  ∧ loadHistory (ms.map Record.valid ++ [Record.blank] ++ ns.map Record.valid) = ms ++ ns
  ∧ loadHistory (ms.map Record.valid ++ [Record.badSchema] ++ ns.map Record.valid) = ms := by
  induction ms with
  | nil => simp [loadHistory, loadHistory_map_valid]
  | cons m ms ih =>
    simpa [loadHistory] using ih

/-- **C6.**  Tool results longer than 4000 characters are cut to their first
4000 characters followed by the explicit truncation marker; results of at
most 4000 characters pass through unchanged. -/
theorem c6_tool_result_truncation (s : String) :
    (4000 < s.length → truncateResult s =
      s.take 4000 ++ "\n\n[... truncated for length. Present the above results to the user.]")
  ∧ (s.length ≤ 4000 → truncateResult s = s) := by
  constructor
  · intro h
    simp [truncateResult, h]
  · intro h
    simp only [truncateResult, gt_iff_lt]
    rw [if_neg (by omega)]

/-- A 4001-character string, exceeding the truncation threshold. -/
def longResult : String := String.mk (List.replicate 4001 'a')

/-- **C6, witness.** -/
theorem c6_tool_result_truncation_witness :
    truncateResult "ok" = "ok" ∧
    truncateResult longResult = longResult.take 4000 ++
      "\n\n[... truncated for length. Present the above results to the user.]" := by
  constructor
  · exact (c6_tool_result_truncation "ok").2 (by decide)
  · exact (c6_tool_result_truncation longResult).1 (by
      have hlen : longResult.length = 4001 := by
        show (List.replicate 4001 'a').length = 4001
        rw [List.length_replicate]
      omega)

/-- **C10.**  Path derivation is not injective: the distinct ids `"a.b"` and
`"ab"` sanitize to the same storage path, and a message saved under `"a.b"`
into an empty store is what `load` under `"ab"` returns — the colliding
sessions share one history. -/
theorem c10_session_path_collision (dir : String) (m : Message) :
    getPath dir "a.b" = getPath dir "ab"
  ∧ "a.b" ≠ "ab"
  ∧ (loadSession (saveMessage [] dir "a.b" m) dir "ab").history = [m] := by
  have hs : sanitizeId "a.b" = sanitizeId "ab" := by decide
  have hp : getPath dir "a.b" = getPath dir "ab" := by
    simp [getPath, hs]
  refine ⟨hp, by decide, ?_⟩
  simp [saveMessage, loadSession, Store.appendRecord, Store.file, hp, List.lookup, loadHistory]

/-- A model backend stub that always answers with a fixed plain text and no
tool calls. -/
def plainTextBackend (t : String) : Backend := fun _ _ _ => .ok ⟨t, []⟩

/-- **C1, code behaviour at the claimed scenario.**  With a fresh (empty)
session `"s1"`, message `"hello"`, and a backend stub answering plain text
`"hi there"` with no tool calls, `process` does return `"hi there"`, but the
persisted log afterwards holds zero records, not the claimed two: the user
message is never appended to the session (neither the agent nor the client
adds it), so the in-memory history holds a single assistant message and the
agent's `len(history) >= 2` guard persists nothing. -/
theorem c1_fresh_session_persists_nothing :
    (processMessage (plainTextBackend "hi there") [] none [] "sessions" "s1" "hello").2
      = "hi there"
  ∧ (loadSession
      (processMessage (plainTextBackend "hi there") [] none [] "sessions" "s1" "hello").1
      "sessions" "s1").history = [] := by
  exact ⟨rfl, rfl⟩

/-- A model backend stub whose every call raises. -/
def failingBackend (e : String) : Backend := fun _ _ _ => .error e

/-- **C2, code behaviour at the claimed scenario.**  The claim requires the
user message to be appended and persisted before the backend is invoked, so
that a backend failure never loses it.  In the code nothing is persisted
before `send_message`; with a backend whose call raises, `process` on a
fresh session returns the synthesized apology and the persisted log is still
empty — the user's input is lost. -/
theorem c2_user_message_not_persisted_before_backend :
    (processMessage (failingBackend "network down") [] none [] "sessions" "s1" "hello").2
      = "I encountered an error communicating with my local brain."
  ∧ (loadSession
      (processMessage (failingBackend "network down") [] none [] "sessions" "s1" "hello").1
      "sessions" "s1").history = [] := by
  exact ⟨rfl, rfl⟩

/-- A tool whose invocation always raises with message `"boom"`. -/
def boomTool : Tool := fun _ => .error "boom"

/-- A registry holding only the raising tool `"t"`. -/
def regBoom : Registry := [("t", boomTool)]

/-- **C5.**  Inside the round loop: a tool call whose name is unregistered
yields the synthesized not-found error string as its result; an invocation
that raises yields the synthesized error string carrying the failure reason;
the loop then continues into the next round with those results appended as
tool messages of the round context; and as long as the backend itself never
raises, the loop never produces the failed outcome — tool failures never
abort the exchange. -/
theorem c5_tool_failures_recovered (reg : Registry) (backend : Backend)
    (name : String) (args : Args) (f : Tool) (e : String)
    (fuel round_num calls : Nat) (messages : List ChatMsg) (resp : ChatResponse) :
    (getTool reg name = none →
      execToolCall reg ⟨name, args⟩ = "Error: Tool " ++ name ++ " not found.")
  ∧ (getTool reg name = some f → f args = .error e →
      execToolCall reg ⟨name, args⟩ = "Error executing tool " ++ name ++ ": " ++ e)
  ∧ (backend calls messages (decide (round_num < MAX_TOOL_ROUNDS)) = .ok resp →
      resp.tool_calls ≠ [] →
      toolLoop backend reg (fuel + 1) round_num messages calls =
        toolLoop backend reg fuel (round_num + 1)
          (messages ++ [⟨"assistant", resp.content⟩] ++
            resp.tool_calls.map
              (fun tc => ⟨"tool", truncateResult (execToolCall reg tc)⟩))
          (calls + 1))
  ∧ ((∀ i m t, ∃ r, backend i m t = .ok r) →
      ∀ err c, toolLoop backend reg fuel round_num messages calls ≠ .failed err c) := by
  refine ⟨?_, ?_, ?_, ?_⟩
  · intro h
    simp [execToolCall, h]
  · intro h hf
    simp [execToolCall, h, hf]
  · intro hb htc
    simp only [toolLoop, hb]
    rw [if_neg (by simpa [List.isEmpty_iff] using htc)]
  · intro hok
    induction fuel generalizing round_num messages calls with
    | zero =>
      intro err c
      simp [toolLoop]
    | succ n ih =>
      intro err c
      obtain ⟨r, hr⟩ := hok calls messages (decide (round_num < MAX_TOOL_ROUNDS))
      simp only [toolLoop, hr]
      split
      · simp
      · exact ih _ _ _ err c

/-- A model backend stub that requests the tool call `t` on every call,
with empty textual content. -/
def alwaysToolBackend : Backend := fun _ _ _ => .ok ⟨"", [⟨"t", []⟩]⟩

/-- **C5, witness.** -/
theorem c5_tool_failures_recovered_witness :
    execToolCall regBoom ⟨"missing", []⟩ = "Error: Tool " ++ "missing" ++ " not found."
  ∧ execToolCall regBoom ⟨"t", []⟩ = "Error executing tool " ++ "t" ++ ": " ++ "boom"
  ∧ toolLoop alwaysToolBackend regBoom (3 + 1) 0 [] 0 =
      toolLoop alwaysToolBackend regBoom 3 (0 + 1)
        ([] ++ [⟨"assistant", ""⟩] ++
          [ToolCall.mk "t" []].map
            (fun tc => ⟨"tool", truncateResult (execToolCall regBoom tc)⟩)) (0 + 1)
  ∧ (∀ err c, toolLoop alwaysToolBackend regBoom 4 0 [] 0 ≠ .failed err c) := by
  refine ⟨?_, ?_, ?_, ?_⟩
  · exact (c5_tool_failures_recovered regBoom alwaysToolBackend "missing" [] boomTool
      "boom" 0 0 0 [] ⟨"", []⟩).1 rfl
  · exact (c5_tool_failures_recovered regBoom alwaysToolBackend "t" [] boomTool
      "boom" 0 0 0 [] ⟨"", []⟩).2.1 rfl rfl
  · exact (c5_tool_failures_recovered regBoom alwaysToolBackend "t" [] boomTool
      "boom" 3 0 0 [] ⟨"", [⟨"t", []⟩]⟩).2.2.1 rfl (by simp)
  · exact fun err c =>
      (c5_tool_failures_recovered regBoom alwaysToolBackend "t" [] boomTool
        "boom" 4 0 0 [] ⟨"", []⟩).2.2.2
        (fun i m t => ⟨⟨"", [⟨"t", []⟩]⟩, rfl⟩) err c

/-- Under a backend that requests a tool call on every round, the bounded
loop exhausts its fuel: it returns the exhausted outcome after exactly
`fuel` backend calls, having accumulated at least `fuel` additional
tool-role messages in the transcript. -/
theorem toolLoop_exhausts (backend : Backend) (reg : Registry)
    (hb : ∀ i m t, ∃ r, backend i m t = .ok r ∧ r.tool_calls ≠ []) :
    ∀ fuel round_num messages calls, ∃ msgs',
      toolLoop backend reg fuel round_num messages calls = .exhausted msgs' (calls + fuel)
    ∧ (messages.filter (fun m => m.role = "tool")).length + fuel ≤
        (msgs'.filter (fun m => m.role = "tool")).length := by
  intro fuel
  induction fuel with
  | zero =>
    intro round_num messages calls
    exact ⟨messages, by simp [toolLoop], by simp⟩
  | succ n ih =>
    intro round_num messages calls
    obtain ⟨r, hr, htc⟩ := hb calls messages (decide (round_num < MAX_TOOL_ROUNDS))
    obtain ⟨msgs', hrec, hcount⟩ := ih (round_num + 1)
      (messages ++ [⟨"assistant", r.content⟩] ++
        r.tool_calls.map (fun tc => ⟨"tool", truncateResult (execToolCall reg tc)⟩))
      (calls + 1)
    refine ⟨msgs', ?_, ?_⟩
    · simp only [toolLoop, hr]
      rw [if_neg (by simpa [List.isEmpty_iff] using htc)]
      rw [hrec]
      congr 1
      omega
    · have hone : 1 ≤ r.tool_calls.length := List.length_pos.mpr htc
      have hlen : ((messages ++ [ChatMsg.mk "assistant" r.content] ++
          r.tool_calls.map
            (fun tc => ChatMsg.mk "tool" (truncateResult (execToolCall reg tc)))).filter
          (fun m => m.role = "tool")).length =
          (messages.filter (fun m => m.role = "tool")).length + r.tool_calls.length := by
        simp [List.filter_append, List.filter_cons, List.filter_map, Function.comp]
      omega

/-- A list of length two is literally a pair. -/
theorem length_two_shape (l : List α) (h : l.length = 2) : ∃ a b, l = [a, b] := by
  match l, h with
  | [a, b], _ => exact ⟨a, b, rfl⟩

/-- **C3, counterexample.**  With a backend stub that requests a tool call
on every call, `send_message` issues `MAX_TOOL_ROUNDS + 2 = 5` backend
calls — the `R + 1 = 4` iterations of the round loop (the last with tools
withheld) are followed by one additional forced text-only call — exceeding
the claimed bound of `R + 1` backend calls. -/
theorem c3_round_loop_counterexample :
    (sendMessage alwaysToolBackend [] none ⟨"s1", []⟩ "go").2.2 = MAX_TOOL_ROUNDS + 2
  ∧ ¬ ((sendMessage alwaysToolBackend [] none ⟨"s1", []⟩ "go").2.2 ≤ MAX_TOOL_ROUNDS + 1) := by
  constructor
  · rfl
  · decide

/-- **C3, amended.**  For every session and every model backend that on
every call requests at least one tool call, the orchestration terminates
after exactly `R + 2` backend calls (`R + 1` bounded loop rounds, the last
with tools withheld, plus one forced text-only call) and returns a
non-empty textual answer. -/
theorem c3_round_loop_terminates (backend : Backend) (reg : Registry)
    (si : Option String) (session : Session) (content : String)
    (hb : ∀ i m t, ∃ r, backend i m t = .ok r ∧ r.tool_calls ≠ []) :
    (sendMessage backend reg si session content).2.2 = MAX_TOOL_ROUNDS + 2
  ∧ (sendMessage backend reg si session content).2.1 ≠ "" := by
  obtain ⟨msgs', hloop, hcount⟩ := toolLoop_exhausts backend reg hb (MAX_TOOL_ROUNDS + 1) 0
    ((match si with
      | some s => [ChatMsg.mk "system" s]
      | none => []) ++ session.history.map
        (fun m => ChatMsg.mk (if m.role = "model" then "assistant" else m.role) m.content)) 0
  obtain ⟨r2, hr2, _⟩ := hb (0 + (MAX_TOOL_ROUNDS + 1)) (msgs' ++ [forcedSystemMsg]) false
  have htools : 2 ≤ ((msgs' ++ [forcedSystemMsg]).filter
      (fun m => m.role = "tool")).length := by
    have h0 : (List.filter (fun m => decide (m.role = "tool")) [forcedSystemMsg]).length = 0 := by
      simp [forcedSystemMsg]
    rw [List.filter_append, List.length_append, h0]
    rw [show MAX_TOOL_ROUNDS = 3 from rfl] at hcount
    omega
  have hmaplen : 2 ≤ (((msgs' ++ [forcedSystemMsg]).filter
      (fun m => m.role = "tool")).map ChatMsg.content).length := by
    simpa using htools
  obtain ⟨a, b, hab⟩ := length_two_shape _
    (lastTwo_length (((msgs' ++ [forcedSystemMsg]).filter
      (fun m => m.role = "tool")).map ChatMsg.content) hmaplen)
  have hne : (((msgs' ++ [forcedSystemMsg]).filter
      (fun m => m.role = "tool")).map ChatMsg.content).isEmpty = false := by
    cases h0 : ((msgs' ++ [forcedSystemMsg]).filter
        (fun m => m.role = "tool")).map ChatMsg.content with
    | nil => rw [h0] at hmaplen; simp at hmaplen
    | cons x xs => rfl
  simp only [sendMessage, hloop, hr2]
  by_cases hc : r2.content = ""
  · simp only [hc, hne, if_pos rfl, Bool.false_eq_true, if_false]
    refine ⟨rfl, ?_⟩
    rw [hab]
    exact joinSep_two_ne_empty a b
  · simp only [if_neg hc]
    exact ⟨rfl, hc⟩

/-- **C3, witness.** -/
theorem c3_round_loop_terminates_witness :
    (sendMessage alwaysToolBackend [] none ⟨"s1", []⟩ "go").2.2 = MAX_TOOL_ROUNDS + 2
  ∧ (sendMessage alwaysToolBackend [] none ⟨"s1", []⟩ "go").2.1 ≠ "" :=
  c3_round_loop_terminates alwaysToolBackend [] none ⟨"s1", []⟩ "go"
    (fun i m t => ⟨⟨"", [⟨"t", []⟩]⟩, rfl, by simp⟩)

/-- A navigation environment in which every page load succeeds. -/
def navAll : String → Bool := fun _ => true

/-- A pool that has been used once: lazily initialized by `_ensure_browser`. -/
def readyPool : PoolState := ensureBrowser PoolState.initial

/-- **C7, counterexample.**  The claim says any page operation on a closed
manager must fail explicitly and in particular must not silently
re-initialize the browser.  But `get_page` on the closed pool succeeds: its
lazy `_ensure_browser`/`_ensure_event_loop` path sees `_initialized == False`
and a stopped loop, spins up a fresh event loop and browser, and serves the
page — the final state is re-initialized. -/
theorem c7_closed_not_terminal_counterexample :
    (getPage navAll (closePool readyPool) "https://example.com" false).2
      = .ok "https://example.com"
  ∧ (getPage navAll (closePool readyPool) "https://example.com" false).1.initialized = true
  ∧ (closePool readyPool).initialized = false := by
  exact ⟨rfl, rfl, rfl⟩

/-- **C7, amended.**  `close` is idempotent and safe on an already-closed
manager, and closing a (reachable) pool leaves it uninitialized; but
`Closed` is not terminal: a subsequent `get_page` on the closed manager
silently re-initializes the event loop and browser and succeeds (for any URL
whose navigation succeeds) instead of failing explicitly. -/
theorem c7_close_idempotent_but_not_terminal (s : PoolState) (url : String)
    (nav : String → Bool) (hinv : s.initialized = true → s.hasLoop = true)
    (hnav : nav url = true) :
    closePool (closePool s) = closePool s
  ∧ (closePool s).initialized = false
  ∧ (getPage nav (closePool s) url false).1.initialized = true
  ∧ (getPage nav (closePool s) url false).2 = .ok url := by
  obtain ⟨i, hl, lr, br, pg, ld⟩ := s
  cases i <;> cases hl <;> cases lr <;>
    by_cases hpg : pg.contains url = true <;>
    simp_all [closePool, ensureEventLoop, getPage, ensureBrowser]

/-- A cache-miss `get_page` with successful navigation performs exactly one
page load, caches the page and returns it. -/
theorem getPage_miss (nav : String → Bool) (p : PoolState) (url : String)
    (h1 : p.pages.contains url = false) (h2 : nav url = true) :
    (getPage nav p url false).1.loads = p.loads + 1
  ∧ (getPage nav p url false).1.pages.contains url = true
  ∧ (getPage nav p url false).2 = .ok url := by
  obtain ⟨i, hl, lr, br, pg, ld⟩ := p
  cases i <;> cases hl <;> cases lr <;>
    simp_all [getPage, ensureBrowser, ensureEventLoop]

/-- A `get_page` for a pool-cached page performs no page load. -/
theorem getPage_hit (nav : String → Bool) (p : PoolState) (url : String)
    (h1 : p.pages.contains url = true) :
    (getPage nav p url false).1.loads = p.loads
  ∧ (getPage nav p url false).2 = .ok url := by
  obtain ⟨i, hl, lr, br, pg, ld⟩ := p
  cases i <;> cases hl <;> cases lr <;>
    simp_all [getPage, ensureBrowser, ensureEventLoop]

/-- The `Discovery` dict built from a successful scan before caching. -/
def scanResult (d : ScanData) : Discovery :=
  { hasWebMCP := d.hasWebMCP, toolCount := d.toolCount, tools := d.tools,
    url := d.url, title := d.title, fromCache := false, note := none, error := none }

/-- **C8.**  Starting from a client whose tool cache and page pool do not
hold `url`, with navigation succeeding and the discovery script returning a
proper scan object: the first `discover` issues exactly one page load and
returns a result annotated `fromCache = false`; the second `discover`
(without `force_refresh`) issues no page load, leaves the pool untouched,
and returns the cached result annotated `fromCache = true`. -/
theorem c8_discover_cache_hit (nav : String → Bool) (scan : ScanEnv) (st : WebState)
    (url : String) (d : ScanData)
    (hmiss : List.lookup url st.cache = none)
    (hfresh : st.pool.pages.contains url = false)
    (hnav : nav url = true)
    (hscan : scan url = .ok (some d)) :
    (discoverTools nav scan st url false).1.pool.loads = st.pool.loads + 1
  ∧ (discoverTools nav scan st url false).2.fromCache = false
  ∧ (discoverTools nav scan (discoverTools nav scan st url false).1 url false).1.pool
      = (discoverTools nav scan st url false).1.pool
  ∧ (discoverTools nav scan (discoverTools nav scan st url false).1 url false).2
      = { (discoverTools nav scan st url false).2 with fromCache := true } := by
  obtain ⟨hload, hcached, hok⟩ := getPage_miss nav st.pool url hfresh hnav
  obtain ⟨p', hp', hp'loads⟩ : ∃ p', getPage nav st.pool url false = (p', Except.ok url) ∧
      p'.loads = st.pool.loads + 1 := by
    refine ⟨(getPage nav st.pool url false).1, ?_, hload⟩
    rw [← hok]
  have hfirst : discoverTools nav scan st url false =
      (WebState.mk p' ((url, scanResult d) :: st.cache.filter (fun p => p.1 ≠ url)),
       scanResult d) := by
    simp [discoverTools, hmiss, discoverScan, hp', hscan, scanResult]
  refine ⟨by rw [hfirst]; exact hp'loads, by rw [hfirst]; rfl, ?_, ?_⟩
  · rw [hfirst]
    simp [discoverTools, List.lookup, updateCache]
  · rw [hfirst]
    simp [discoverTools, List.lookup, updateCache, scanResult]

/-- A concrete scan object for the witness. -/
def demoScanData : ScanData :=
  ⟨true, 1, [⟨"search", "site search", "navigator.modelContext"⟩],
   "https://example.com", "Example"⟩

/-- A scan environment that always yields the demo scan object. -/
def demoScanEnv : ScanEnv := fun _ => .ok (some demoScanData)

/-- A freshly constructed `WebMCPClient`: new pool, empty tool cache. -/
def freshWeb : WebState := ⟨PoolState.initial, []⟩

/-- **C8, witness.** -/
theorem c8_discover_cache_hit_witness :
    (discoverTools navAll demoScanEnv freshWeb "https://example.com" false).1.pool.loads
      = freshWeb.pool.loads + 1
  ∧ (discoverTools navAll demoScanEnv freshWeb "https://example.com" false).2.fromCache = false
  ∧ (discoverTools navAll demoScanEnv
      (discoverTools navAll demoScanEnv freshWeb "https://example.com" false).1
      "https://example.com" false).1.pool
      = (discoverTools navAll demoScanEnv freshWeb "https://example.com" false).1.pool
  ∧ (discoverTools navAll demoScanEnv
      (discoverTools navAll demoScanEnv freshWeb "https://example.com" false).1
      "https://example.com" false).2
      = { (discoverTools navAll demoScanEnv freshWeb "https://example.com" false).2 with
          fromCache := true } :=
  c8_discover_cache_hit navAll demoScanEnv freshWeb "https://example.com" demoScanData
    rfl rfl rfl rfl

/-- A cache-miss `get_page` whose navigation fails raises to the caller. -/
theorem getPage_navFail (nav : String → Bool) (p : PoolState) (url : String)
    (h1 : p.pages.contains url = false) (h2 : nav url = false) :
    (getPage nav p url false).2 = .error ("navigation to " ++ url ++ " failed") := by
  obtain ⟨i, hl, lr, br, pg, ld⟩ := p
  cases i <;> cases hl <;> cases lr <;>
    simp_all [getPage, ensureBrowser, ensureEventLoop]

/-- **C9.**  For a tool name that neither the page's native
`navigator.modelContext` entries (with a function handler) nor its
`data-mcp-tool` elements (form/button/anchor) resolve, `execute_tool`
returns `success = false` with the structured not-found error; a reported
success always corresponds to an actual invocation (a resolved native
handler, a submitted form, or a clicked button/anchor); and the
exception paths — failed navigation, raising evaluation — are returned as
structured `success = false` results rather than propagating. -/
theorem c9_execute_unresolved_tool (nav : String → Bool)
    (evalRaises : String → Option String) (pageOf : String → PageModel)
    (st : PoolState) (url toolName : String) (args : Args) :
    ((∀ h, List.lookup toolName (pageOf url).nativeTools ≠ some (some h)) →
      ((pageOf url).elems toolName = none ∨ (pageOf url).elems toolName = some .other) →
      nav url = true → evalRaises url = none →
      (executeTool nav evalRaises pageOf st url toolName args).2.success = false ∧
      (executeTool nav evalRaises pageOf st url toolName args).2.error =
        some ("Tool \x22" ++ toolName ++ "\x22 not found or not executable on this page"))
  ∧ ((executeTool nav evalRaises pageOf st url toolName args).2.success = true →
      (∃ h r, List.lookup toolName (pageOf url).nativeTools = some (some h) ∧
        h args = .ok r)
      ∨ (pageOf url).elems toolName = some .form
      ∨ (pageOf url).elems toolName = some .button
      ∨ (pageOf url).elems toolName = some .anchor)
  ∧ (nav url = false → st.pages.contains url = false →
      (executeTool nav evalRaises pageOf st url toolName args).2.success = false)
  ∧ (∀ e, evalRaises url = some e → nav url = true →
      (executeTool nav evalRaises pageOf st url toolName args).2.success = false ∧
      (executeTool nav evalRaises pageOf st url toolName args).2.error = some e) := by
  refine ⟨?_, ?_, ?_, ?_⟩
  · intro hnat helems hnav heval
    have hok : (getPage nav st url false).2 = .ok url := by
      by_cases hc : st.pages.contains url = true
      · exact (getPage_hit nav st url hc).2
      · exact (getPage_miss nav st url (by simpa using hc) hnav).2.2
    obtain ⟨p', hp'⟩ : ∃ p', getPage nav st url false = (p', Except.ok url) :=
      ⟨(getPage nav st url false).1, by rw [← hok]⟩
    simp only [executeTool, hp', heval]
    cases hL : List.lookup toolName (pageOf url).nativeTools with
    | none => rcases helems with he | he <;> simp [execScript, hL, he]
    | some o =>
      cases o with
      | none => rcases helems with he | he <;> simp [execScript, hL, he]
      | some h => exact absurd hL (hnat h)
  · intro hsucc
    rcases hg : getPage nav st url false with ⟨p', r⟩
    cases r with
    | error e => rw [executeTool, hg] at hsucc; simp at hsucc
    | ok page =>
      cases hE : evalRaises url with
      | some e => rw [executeTool, hg] at hsucc; simp [hE] at hsucc
      | none =>
        rw [executeTool, hg] at hsucc
        simp only [hE] at hsucc
        cases hL : List.lookup toolName (pageOf url).nativeTools with
        | none =>
          rw [execScript, hL] at hsucc
          cases he : (pageOf url).elems toolName with
          | none => simp [he] at hsucc
          | some k => cases k <;> simp [he] at hsucc ⊢
        | some o =>
          cases o with
          | none =>
            rw [execScript, hL] at hsucc
            cases he : (pageOf url).elems toolName with
            | none => simp [he] at hsucc
            | some k => cases k <;> simp [he] at hsucc ⊢
          | some h =>
            rw [execScript, hL] at hsucc
            cases hr : h args with
            | ok v => exact Or.inl ⟨h, v, rfl, hr⟩
            | error e => simp [hr] at hsucc
  · intro hnav hfresh
    have herr := getPage_navFail nav st url hfresh hnav
    obtain ⟨p', hp'⟩ : ∃ p', getPage nav st url false =
        (p', Except.error ("navigation to " ++ url ++ " failed")) :=
      ⟨(getPage nav st url false).1, by rw [← herr]⟩
    simp [executeTool, hp']
  · intro e hE hnav
    have hok : (getPage nav st url false).2 = .ok url := by
      by_cases hc : st.pages.contains url = true
      · exact (getPage_hit nav st url hc).2
      · exact (getPage_miss nav st url (by simpa using hc) hnav).2.2
    obtain ⟨p', hp'⟩ : ∃ p', getPage nav st url false = (p', Except.ok url) :=
      ⟨(getPage nav st url false).1, by rw [← hok]⟩
    simp [executeTool, hp', hE]

/-- A page exposing no native tools and no `data-mcp-tool` elements. -/
def emptyPage : PageModel := ⟨[], fun _ => none⟩

/-- **C9, witness.** -/
theorem c9_execute_unresolved_tool_witness :
    (executeTool navAll (fun _ => none) (fun _ => emptyPage) PoolState.initial
      "https://example.com" "nope" []).2.success = false
  ∧ (executeTool navAll (fun _ => none) (fun _ => emptyPage) PoolState.initial
      "https://example.com" "nope" []).2.error =
      some ("Tool \x22" ++ "nope" ++ "\x22 not found or not executable on this page") :=
  (c9_execute_unresolved_tool navAll (fun _ => none) (fun _ => emptyPage)
    PoolState.initial "https://example.com" "nope" []).1
    (fun h hc => by simp [emptyPage] at hc) (Or.inl rfl) rfl rfl

/-- **C7, witness.** -/
theorem c7_close_idempotent_but_not_terminal_witness :
    closePool (closePool readyPool) = closePool readyPool
  ∧ (closePool readyPool).initialized = false
  ∧ (getPage navAll (closePool readyPool) "https://example.com" false).1.initialized = true
  ∧ (getPage navAll (closePool readyPool) "https://example.com" false).2
      = .ok "https://example.com" :=
  c7_close_idempotent_but_not_terminal readyPool "https://example.com" navAll
    (fun _ => rfl) rfl
